import Mathlib

/-!
Verification of the session-storage layer of `rx3lixir/auth-service`.

The development shallowly embeds the Go code of
`internal/db/session-methods.go` (the `RedisStore` methods), the relevant
part of `auth-grpc/server/server.go` / `mappers.go`, and
`internal/config/config.go` (`GetSessionTTL`).

Modelling choices:
* Redis is a single string-keyed store.  Each key holds a value together
  with its TTL.  A value is either a plain string (`RVal.str`, e.g. the
  blacklist sentinels or bytes that do not unmarshal into a `Session`),
  a marshalled session (`RVal.sess` — `json.Marshal` of a `Session` is
  total, and `json.Unmarshal` recovers it exactly, so we store the record
  itself), or a Redis set (`RVal.set`).
* Timestamps and durations are integers (nanoseconds, as in Go's
  `time.Time`/`time.Duration`); the Go zero time is `0`, and `time.Now()`
  is an explicit `now` parameter.
* Every backend call is fallible: executions are parametrised by a fault
  schedule `faults : List Nat`; the n-th backend call of an execution
  fails iff `n ∈ faults`.  A Redis `WRONGTYPE` reply is also surfaced as
  a failed call, matching the Go error paths.
* Each method threads an explicit machine `Exec`: the store, the count of
  backend calls issued so far, and a journal of the successfully applied
  write effects in order (used to state ordering / crash-window claims:
  a crash after `n` effects leaves the state `applyAll` of the journal's
  first `n` entries).
-/

/-! ### Association lists (string-keyed store) -/

def alookup {α : Type} (l : List (String × α)) (k : String) : Option α :=
  match l with
  | [] => none
  | (k', v) :: t => if k' = k then some v else alookup t k

def aset {α : Type} (l : List (String × α)) (k : String) (v : α) : List (String × α) :=
  match l with
  | [] => [(k, v)]
  | (k', v') :: t => if k' = k then (k, v) :: t else (k', v') :: aset t k v

def aerase {α : Type} (l : List (String × α)) (k : String) : List (String × α) :=
  match l with
  | [] => []
  | (k', v') :: t => if k' = k then aerase t k else (k', v') :: aerase t k

/-! ### Data model (`internal/db/types.go`) -/

structure Session where
  Id : String
  UserEmail : String
  RefreshToken : String
  IsRevoked : Bool
  CreatedAt : Int
  ExpiresAt : Int
deriving DecidableEq

/-- A value held by one Redis key. -/
inductive RVal where
  | str (s : String)
  | sess (s : Session)
  | set (ms : List String)
deriving DecidableEq

/-- The Redis keyspace: each key maps to a value and the key's TTL
(`-1` meaning "no TTL", as for a fresh set key). -/
structure RedisState where
  kv : List (String × (RVal × Int))
deriving DecidableEq

/-- Go `time.Minute` in nanoseconds. -/
def timeMinute : Int := 60000000000

/-- Go `time.Hour` in nanoseconds. -/
def timeHour : Int := 3600000000000

def sessionKey (id : String) : String := "session:" ++ id

def blacklistKey (token : String) : String := "blacklist:" ++ token

def userSessionsKey (email : String) : String := "user_sessions:" ++ email

/-! ### Backend write effects and their semantics -/

inductive WOp where
  | setStr (k v : String) (ttl : Int)
  | setSess (k : String) (s : Session) (ttl : Int)
  | del (k : String)
  | sadd (k m : String)
  | srem (k m : String)
  | expire (k : String) (ttl : Int)
deriving DecidableEq

/-- Apply one write effect to the store.  `none` models a Redis
`WRONGTYPE` reply (set operation on a non-set key), which the Go code
receives as an error from the client. -/
def applyW (st : RedisState) : WOp → Option RedisState
  | .setStr k v ttl => some ⟨aset st.kv k (.str v, ttl)⟩
  | .setSess k s ttl => some ⟨aset st.kv k (.sess s, ttl)⟩
  | .del k => some ⟨aerase st.kv k⟩
  | .sadd k m =>
    match alookup st.kv k with
    | none => some ⟨aset st.kv k (.set [m], -1)⟩
    | some (.set ms, t) =>
      some ⟨aset st.kv k (.set (if m ∈ ms then ms else ms ++ [m]), t)⟩
    | some (.str _, _) => none
    | some (.sess _, _) => none
  | .srem k m =>
    match alookup st.kv k with
    | none => some st
    | some (.set ms, t) =>
      let ms' := ms.filter (fun x => x ≠ m)
      some (if ms' = [] then ⟨aerase st.kv k⟩ else ⟨aset st.kv k (.set ms', t)⟩)
    | some (.str _, _) => none
    | some (.sess _, _) => none
  | .expire k ttl =>
    match alookup st.kv k with
    | none => some st
    | some (v, _) => some ⟨aset st.kv k (v, ttl)⟩

/-- Replay a journal (or a crash-truncated piece of it) against a store.
Effects in the journal were applied successfully, so `applyW` is defined
on them; `getD` keeps the function total. -/
def applyAll (st : RedisState) (js : List WOp) : RedisState :=
  js.foldl (fun s w => (applyW s w).getD s) st

/-- Execution machine: current store, number of backend calls issued so
far, and the journal of successfully applied writes in order. -/
structure Exec where
  st : RedisState
  calls : Nat
  journal : List WOp
deriving DecidableEq

def tick (m : Exec) : Exec := { m with calls := m.calls + 1 }

/-- Issue a write.  Returns `false` when the call fails (injected fault
or `WRONGTYPE`); a successful write is journalled. -/
def doWrite (faults : List Nat) (w : WOp) (m : Exec) : Bool × Exec :=
  if m.calls ∈ faults then (false, tick m)
  else
    match applyW m.st w with
    | none => (false, tick m)
    | some st' => (true, { st := st', calls := m.calls + 1, journal := m.journal ++ [w] })

/-- Redis `GET`: outer `none` is a backend failure (fault or `WRONGTYPE`),
`some none` is `redis.Nil` (missing key). -/
def doGet (faults : List Nat) (k : String) (m : Exec) : Option (Option RVal) × Exec :=
  if m.calls ∈ faults then (none, tick m)
  else
    match alookup m.st.kv k with
    | none => (some none, tick m)
    | some (.str s, _) => (some (some (.str s)), tick m)
    | some (.sess s, _) => (some (some (.sess s)), tick m)
    | some (.set _, _) => (none, tick m)

/-- Redis `SMEMBERS`: missing key yields the empty list; non-set key is a
`WRONGTYPE` failure. -/
def doSMembers (faults : List Nat) (k : String) (m : Exec) : Option (List String) × Exec :=
  if m.calls ∈ faults then (none, tick m)
  else
    match alookup m.st.kv k with
    | none => (some [], tick m)
    | some (.set ms, _) => (some ms, tick m)
    | some (.str _, _) => (none, tick m)
    | some (.sess _, _) => (none, tick m)

/-- Redis `EXISTS`. -/
def doExists (faults : List Nat) (k : String) (m : Exec) : Option Bool × Exec :=
  if m.calls ∈ faults then (none, tick m)
  else (some (alookup m.st.kv k).isSome, tick m)

/-- The value `MGET` reports for one key: a non-string (missing or
set-typed) position is `nil`, mirroring Redis `MGET` semantics. -/
def mgetVal (kv : List (String × (RVal × Int))) (k : String) : Option RVal :=
  match alookup kv k with
  | some (.str s, _) => some (.str s)
  | some (.sess s, _) => some (.sess s)
  | some (.set _, _) => none
  | none => none

/-- Redis `MGET`. -/
def doMGet (faults : List Nat) (ks : List String) (m : Exec) :
    Option (List (Option RVal)) × Exec :=
  if m.calls ∈ faults then (none, tick m)
  else (some (ks.map (mgetVal m.st.kv)), tick m)

/-! ### Errors (one constructor per `fmt.Errorf` site) -/

inductive GoErr where
  | sessionIdRequired
  | userEmailRequired
  | refreshTokenRequired
  | expirationRequired
  | expirationNotFuture
  | marshalFailed
  | saveFailed
  | indexFailed
  | indexExpireFailed
  | sessionNotFound (id : String)
  | getFailed
  | unmarshalFailed
  | alreadyRevoked
  | blacklistAddFailed
  | updateFailed
  | userSessionsGetFailed
  | mgetFailed
  | removeFromIndexFailed
  | deleteFailed
  | tokenRequired
  | existsFailed
deriving DecidableEq

/-- The errors returned by the input-validation guards (before any
backend call), as opposed to not-found / backend / corruption errors. -/
def GoErr.isValidation : GoErr → Bool
  | .sessionIdRequired => true
  | .userEmailRequired => true
  | .refreshTokenRequired => true
  | .expirationRequired => true
  | .expirationNotFuture => true
  | .tokenRequired => true
  | _ => false

instance {ε α : Type} [DecidableEq ε] [DecidableEq α] : DecidableEq (Except ε α) := fun a b =>
  match a, b with
  | .ok x, .ok y => decidable_of_iff (x = y) (by simp)
  | .error x, .error y => decidable_of_iff (x = y) (by simp)
  | .ok _, .error _ => .isFalse (fun h => Except.noConfusion h)
  | .error _, .ok _ => .isFalse (fun h => Except.noConfusion h)

/-! ### `RedisStore` methods (`internal/db/session-methods.go`) -/

/-- Lines 39-41 of `CreateSession`: default `CreatedAt` to `time.Now()`
when it is the zero time. -/
def withDefaultCreatedAt (now : Int) (session : Session) : Session :=
  if session.CreatedAt = 0 then { session with CreatedAt := now } else session

/-- Go `RedisStore.CreateSession`. -/
def CreateSession (faults : List Nat) (now : Int) (session : Session) (m : Exec) :
    Except GoErr Session × Exec :=
  if session.Id = "" then (.error .sessionIdRequired, m)
  else if session.UserEmail = "" then (.error .userEmailRequired, m)
  else if session.RefreshToken = "" then (.error .refreshTokenRequired, m)
  else
    let session := withDefaultCreatedAt now session
    if session.ExpiresAt = 0 then (.error .expirationRequired, m)
    else
      let ttl := session.ExpiresAt - now
      if ttl ≤ 0 then (.error .expirationNotFuture, m)
      else
        let key := sessionKey session.Id
        match doWrite faults (.setSess key session ttl) m with
        | (false, m) => (.error .saveFailed, m)
        | (true, m) =>
          let usk := userSessionsKey session.UserEmail
          match doWrite faults (.sadd usk session.Id) m with
          | (false, m) =>
            let (_, m) := doWrite faults (.del key) m
            (.error .indexFailed, m)
          | (true, m) =>
            match doWrite faults (.expire usk ttl) m with
            | (false, m) =>
              let (_, m) := doWrite faults (.del key) m
              let (_, m) := doWrite faults (.srem usk session.Id) m
              (.error .indexExpireFailed, m)
            | (true, m) => (.ok session, m)

/-- Go `RedisStore.GetSession`. -/
def GetSession (faults : List Nat) (id : String) (m : Exec) :
    Except GoErr Session × Exec :=
  if id = "" then (.error .sessionIdRequired, m)
  else
    match doGet faults (sessionKey id) m with
    | (none, m) => (.error .getFailed, m)
    | (some none, m) => (.error (.sessionNotFound id), m)
    | (some (some (.sess s)), m) => (.ok s, m)
    | (some (some (.str _)), m) => (.error .unmarshalFailed, m)
    | (some (some (.set _)), m) => (.error .getFailed, m)

/-- The deserialisation/filter loop of `GetSessionsByEmail`
(skip `nil`, skip non-unmarshalable data, keep only matching-owner
non-revoked sessions, appending in order). -/
def buildSessions (email : String) : List (Option RVal) → List Session → List Session
  | [], acc => acc
  | v :: rest, acc =>
    match v with
    | some (.sess s) =>
      if s.UserEmail = email then
        if s.IsRevoked then buildSessions email rest acc
        else buildSessions email rest (acc ++ [s])
      else buildSessions email rest acc
    | _ => buildSessions email rest acc

/-- Go `RedisStore.GetSessionsByEmail`. -/
def GetSessionsByEmail (faults : List Nat) (email : String) (m : Exec) :
    Except GoErr (List Session) × Exec :=
  if email = "" then (.error .userEmailRequired, m)
  else
    match doSMembers faults (userSessionsKey email) m with
    | (none, m) => (.error .userSessionsGetFailed, m)
    | (some sessionIDs, m) =>
      if sessionIDs.length = 0 then (.ok [], m)
      else
        match doMGet faults (sessionIDs.map sessionKey) m with
        | (none, m) => (.error .mgetFailed, m)
        | (some vals, m) => (.ok (buildSessions email vals []), m)

/-- Go `RedisStore.RevokeSession`. -/
def RevokeSession (faults : List Nat) (now : Int) (id : String) (m : Exec) :
    Except GoErr Unit × Exec :=
  if id = "" then (.error .sessionIdRequired, m)
  else
    match GetSession faults id m with
    | (.error e, m) => (.error e, m)
    | (.ok session, m) =>
      if session.IsRevoked then (.error .alreadyRevoked, m)
      else
        let ttl0 := session.ExpiresAt - now
        let ttl := if ttl0 ≤ 0 then timeMinute else ttl0
        match doWrite faults (.setStr (blacklistKey session.RefreshToken) "revoked" ttl) m with
        | (false, m) => (.error .blacklistAddFailed, m)
        | (true, m) =>
          let session := { session with IsRevoked := true }
          match doWrite faults (.setSess (sessionKey id) session ttl) m with
          | (false, m) => (.error .updateFailed, m)
          | (true, m) => (.ok (), m)

/-- Go `RedisStore.DeleteSession`. -/
def DeleteSession (faults : List Nat) (now : Int) (id : String) (m : Exec) :
    Except GoErr Unit × Exec :=
  if id = "" then (.error .sessionIdRequired, m)
  else
    match GetSession faults id m with
    | (.error e, m) => (.error e, m)
    | (.ok session, m) =>
      let ttl0 := session.ExpiresAt - now
      let ttl := if ttl0 ≤ 0 then timeMinute else ttl0
      match doWrite faults (.setStr (blacklistKey session.RefreshToken) "deleted" ttl) m with
      | (false, m) => (.error .blacklistAddFailed, m)
      | (true, m) =>
        match doWrite faults (.srem (userSessionsKey session.UserEmail) id) m with
        | (false, m) => (.error .removeFromIndexFailed, m)
        | (true, m) =>
          match doWrite faults (.del (sessionKey id)) m with
          | (false, m) => (.error .deleteFailed, m)
          | (true, m) => (.ok (), m)

/-- Go `RedisStore.IsTokenBlacklisted`. -/
def IsTokenBlacklisted (faults : List Nat) (token : String) (m : Exec) :
    Except GoErr Bool × Exec :=
  if token = "" then (.error .tokenRequired, m)
  else
    match doExists faults (blacklistKey token) m with
    | (none, m) => (.error .existsFailed, m)
    | (some b, m) => (.ok b, m)

/-! ### Pure descriptions of the set-command effects, and safety of
crash-truncated revoke journals -/

/-- The key is free or holds a set, so Redis set commands on it do not
hit `WRONGTYPE`.  Every state reachable by the store's own operations
satisfies this for `user_sessions:` keys. -/
def SetTypeOK (st : RedisState) (k : String) : Prop :=
  alookup st.kv k = none ∨ ∃ ms t, alookup st.kv k = some (.set ms, t)

/-- Store-level effect of a successful `SADD`. -/
def saddPure (kv : List (String × (RVal × Int))) (k mem : String) :
    List (String × (RVal × Int)) :=
  match alookup kv k with
  | none => aset kv k (.set [mem], -1)
  | some (.set ms, t) => aset kv k (.set (if mem ∈ ms then ms else ms ++ [mem]), t)
  | some _ => kv

/-- Store-level effect of a successful `SREM`. -/
def sremPure (kv : List (String × (RVal × Int))) (k mem : String) :
    List (String × (RVal × Int)) :=
  match alookup kv k with
  | none => kv
  | some (.set ms, t) =>
    let ms' := ms.filter (fun x => x ≠ mem)
    if ms' = [] then aerase kv k else aset kv k (.set ms', t)
  | some _ => kv

/-- Store-level effect of a successful `EXPIRE`. -/
def expirePure (kv : List (String × (RVal × Int))) (k : String) (ttl : Int) :
    List (String × (RVal × Int)) :=
  match alookup kv k with
  | none => kv
  | some (v, _) => aset kv k (v, ttl)

/-- Store well-formedness: every session-valued entry sits at the key
derived from its own record id (`session:` + id).  Every state built by
the store's own writes satisfies this; it rules out artificially aliased
records. -/
def kvWF (kv : List (String × (RVal × Int))) : Bool :=
  kv.all fun e =>
    match e.2.1 with
    | .sess v => e.1 = sessionKey v.Id
    | _ => true

/-- After replaying a crash-truncated piece `p` of a revoke journal
against `s0`: the record of `id` does not show `IsRevoked = true` while
`token` is absent from the blacklist. -/
def revokeSafe (s0 : RedisState) (id token : String) (p : List WOp) : Bool :=
  match alookup (applyAll s0 p).kv (sessionKey id) with
  | some (.sess v, _) =>
    !v.IsRevoked || (alookup (applyAll s0 p).kv (blacklistKey token)).isSome
  | _ => true

/-! ### gRPC layer (`auth-grpc/server/server.go`, `mappers.go`,
`internal/config/config.go`) -/

/-- Proto `authPb.SessionReq` (the request fields the server reads).  A `nil`
protobuf timestamp is `none`. -/
structure SessionReq where
  Id : String
  UserEmail : String
  RefreshToken : String
  IsRevoked : Bool
  ExpiresAt : Option Int
deriving DecidableEq

/-- Proto `authPb.SessionRes` (the response fields the server fills). -/
structure SessionRes where
  Id : String
  UserEmail : String
  RefreshToken : String
  IsRevoked : Bool
  ExpiresAt : Int
deriving DecidableEq

/-- Go `ConvertProtoToSession` (`mappers.go`): a `nil` `ExpiresAt` becomes
the zero time; `CreatedAt` is not populated by the mapper. -/
def ConvertProtoToSession (req : SessionReq) : Session :=
  { Id := req.Id
    UserEmail := req.UserEmail
    RefreshToken := req.RefreshToken
    IsRevoked := req.IsRevoked
    CreatedAt := 0
    ExpiresAt := req.ExpiresAt.getD 0 }

/-- Go `ConvertSessionToProto` (`mappers.go`). -/
def ConvertSessionToProto (s : Session) : SessionRes :=
  { Id := s.Id
    UserEmail := s.UserEmail
    RefreshToken := s.RefreshToken
    IsRevoked := s.IsRevoked
    ExpiresAt := s.ExpiresAt }

/-- Go `ServiceParams.GetSessionTTL` (`config.go`):
`time.Hour * 24 * SessionTTLDays`. -/
def GetSessionTTL (sessionTTLDays : Int) : Int :=
  timeHour * 24 * sessionTTLDays

/-- gRPC status errors produced by the server layer. -/
inductive GrpcErr where
  | invalidArgument (msg : String)
  | internal (e : GoErr)
  | notFound (e : GoErr)
deriving DecidableEq

/-- Go `Server.CreateSession` (`server.go`): converts the request, checks
required fields, then unconditionally sets `ExpiresAt` from the
configured TTL before calling the store. -/
def ServerCreateSession (sessionTTLDays : Int) (faults : List Nat) (now : Int)
    (req : SessionReq) (m : Exec) : Except GrpcErr SessionRes × Exec :=
  let session := ConvertProtoToSession req
  if session.UserEmail = "" then (.error (.invalidArgument "user_email is required"), m)
  else if session.Id = "" then (.error (.invalidArgument "id is required"), m)
  else
    let session := { session with ExpiresAt := now + GetSessionTTL sessionTTLDays }
    match CreateSession faults now session m with
    | (.error e, m) => (.error (.internal e), m)
    | (.ok created, m) => (.ok (ConvertSessionToProto created), m)

/-! ### Association-list lemmas -/

theorem alookup_aset_self {α : Type} (l : List (String × α)) (k : String) (v : α) :
    alookup (aset l k v) k = some v := by
  induction l with
  | nil => simp [aset, alookup]
  | cons h t ih =>
    obtain ⟨k', v'⟩ := h
    by_cases hk : k' = k
    · simp [aset, hk, alookup]
    · simp [aset, hk, alookup, ih]

theorem alookup_aset_ne {α : Type} (l : List (String × α)) (k k' : String) (v : α)
    (h : k ≠ k') : alookup (aset l k v) k' = alookup l k' := by
  induction l with
  | nil => simp [aset, alookup, h]
  | cons hd t ih =>
    obtain ⟨k'', v''⟩ := hd
    by_cases hk : k'' = k
    · subst hk
      simp [aset, alookup, h]
    · simp [aset, hk, alookup, ih]

theorem alookup_aerase_self {α : Type} (l : List (String × α)) (k : String) :
    alookup (aerase l k) k = none := by
  induction l with
  | nil => simp [aerase, alookup]
  | cons hd t ih =>
    obtain ⟨k', v'⟩ := hd
    by_cases hk : k' = k
    · simp [aerase, hk, ih]
    · simp [aerase, hk, alookup, ih]

theorem alookup_aerase_ne {α : Type} (l : List (String × α)) (k k' : String)
    (h : k ≠ k') : alookup (aerase l k) k' = alookup l k' := by
  induction l with
  | nil => simp [aerase]
  | cons hd t ih =>
    obtain ⟨k'', v''⟩ := hd
    by_cases hk : k'' = k
    · subst hk
      simp [aerase, alookup, h, ih]
    · simp [aerase, hk, alookup, ih]

/-! ### Key-space facts

The three key constructors use distinct literal heads, so keys from
different families never collide, and each family is injective. -/

theorem sessionKey_ne_blacklistKey (a b : String) : sessionKey a ≠ blacklistKey b := by
  intro h
  have h2 : (sessionKey a).data = (blacklistKey b).data := by rw [h]
  simp [sessionKey, blacklistKey, String.data_append] at h2

theorem sessionKey_ne_userSessionsKey (a b : String) : sessionKey a ≠ userSessionsKey b := by
  intro h
  have h2 : (sessionKey a).data = (userSessionsKey b).data := by rw [h]
  simp [sessionKey, userSessionsKey, String.data_append] at h2

theorem blacklistKey_ne_userSessionsKey (a b : String) :
    blacklistKey a ≠ userSessionsKey b := by
  intro h
  have h2 : (blacklistKey a).data = (userSessionsKey b).data := by rw [h]
  simp [blacklistKey, userSessionsKey, String.data_append] at h2

theorem sessionKey_inj {a b : String} (h : sessionKey a = sessionKey b) : a = b := by
  have h2 : (sessionKey a).data = (sessionKey b).data := by rw [h]
  simp [sessionKey, String.data_append] at h2
  exact String.ext h2

/-! ### Backend-call lemmas -/

theorem doWrite_fault {faults : List Nat} {st : RedisState} {c : Nat} {j : List WOp}
    {w : WOp} (h : c ∈ faults) :
    doWrite faults w ⟨st, c, j⟩ = (false, ⟨st, c + 1, j⟩) := by
  simp [doWrite, tick, h]

theorem doWrite_setStr {faults : List Nat} {st : RedisState} {c : Nat} {j : List WOp}
    {k v : String} {ttl : Int} (h : c ∉ faults) :
    doWrite faults (.setStr k v ttl) ⟨st, c, j⟩ =
      (true, ⟨⟨aset st.kv k (.str v, ttl)⟩, c + 1, j ++ [.setStr k v ttl]⟩) := by
  simp [doWrite, applyW, h]

theorem doWrite_setSess {faults : List Nat} {st : RedisState} {c : Nat} {j : List WOp}
    {k : String} {s : Session} {ttl : Int} (h : c ∉ faults) :
    doWrite faults (.setSess k s ttl) ⟨st, c, j⟩ =
      (true, ⟨⟨aset st.kv k (.sess s, ttl)⟩, c + 1, j ++ [.setSess k s ttl]⟩) := by
  simp [doWrite, applyW, h]

theorem doWrite_del {faults : List Nat} {st : RedisState} {c : Nat} {j : List WOp}
    {k : String} (h : c ∉ faults) :
    doWrite faults (.del k) ⟨st, c, j⟩ =
      (true, ⟨⟨aerase st.kv k⟩, c + 1, j ++ [.del k]⟩) := by
  simp [doWrite, applyW, h]

theorem doWrite_sadd {faults : List Nat} {st : RedisState} {c : Nat} {j : List WOp}
    {k mem : String} (h : c ∉ faults) (hty : SetTypeOK st k) :
    doWrite faults (.sadd k mem) ⟨st, c, j⟩ =
      (true, ⟨⟨saddPure st.kv k mem⟩, c + 1, j ++ [.sadd k mem]⟩) := by
  rcases hty with hty | ⟨ms, t, hty⟩ <;> simp [doWrite, applyW, h, hty, saddPure]

theorem doWrite_srem {faults : List Nat} {st : RedisState} {c : Nat} {j : List WOp}
    {k mem : String} (h : c ∉ faults) (hty : SetTypeOK st k) :
    doWrite faults (.srem k mem) ⟨st, c, j⟩ =
      (true, ⟨⟨sremPure st.kv k mem⟩, c + 1, j ++ [.srem k mem]⟩) := by
  rcases hty with hty | ⟨ms, t, hty⟩
  · simp [doWrite, applyW, h, hty, sremPure]
  · simp [doWrite, applyW, h, hty, sremPure]
    split <;> rfl

theorem doWrite_expire {faults : List Nat} {st : RedisState} {c : Nat} {j : List WOp}
    {k : String} {ttl : Int} (h : c ∉ faults) :
    doWrite faults (.expire k ttl) ⟨st, c, j⟩ =
      (true, ⟨⟨expirePure st.kv k ttl⟩, c + 1, j ++ [.expire k ttl]⟩) := by
  cases hl : alookup st.kv k with
  | none => simp [doWrite, applyW, h, hl, expirePure]
  | some vt =>
    obtain ⟨v, t⟩ := vt
    simp [doWrite, applyW, h, hl, expirePure]

theorem doGet_fault {faults : List Nat} {st : RedisState} {c : Nat} {j : List WOp}
    {k : String} (h : c ∈ faults) :
    doGet faults k ⟨st, c, j⟩ = (none, ⟨st, c + 1, j⟩) := by
  simp [doGet, tick, h]

theorem doGet_sess {faults : List Nat} {st : RedisState} {c : Nat} {j : List WOp}
    {k : String} {s : Session} {t : Int} (h : c ∉ faults)
    (hl : alookup st.kv k = some (.sess s, t)) :
    doGet faults k ⟨st, c, j⟩ = (some (some (.sess s)), ⟨st, c + 1, j⟩) := by
  simp [doGet, tick, h, hl]

theorem doGet_missing {faults : List Nat} {st : RedisState} {c : Nat} {j : List WOp}
    {k : String} (h : c ∉ faults) (hl : alookup st.kv k = none) :
    doGet faults k ⟨st, c, j⟩ = (some none, ⟨st, c + 1, j⟩) := by
  simp [doGet, tick, h, hl]

theorem getSession_found {faults : List Nat} {st : RedisState} {c : Nat} {j : List WOp}
    {id : String} {s : Session} {t : Int} (hid : id ≠ "") (h : c ∉ faults)
    (hl : alookup st.kv (sessionKey id) = some (.sess s, t)) :
    GetSession faults id ⟨st, c, j⟩ = (.ok s, ⟨st, c + 1, j⟩) := by
  unfold GetSession
  simp [hid, doGet_sess h hl]

theorem getSession_notFound {faults : List Nat} {st : RedisState} {c : Nat} {j : List WOp}
    {id : String} (hid : id ≠ "") (h : c ∉ faults)
    (hl : alookup st.kv (sessionKey id) = none) :
    GetSession faults id ⟨st, c, j⟩ = (.error (.sessionNotFound id), ⟨st, c + 1, j⟩) := by
  unfold GetSession
  simp [hid, doGet_missing h hl]

theorem getSession_fault {faults : List Nat} {st : RedisState} {c : Nat} {j : List WOp}
    {id : String} (hid : id ≠ "") (h : c ∈ faults) :
    GetSession faults id ⟨st, c, j⟩ = (.error .getFailed, ⟨st, c + 1, j⟩) := by
  unfold GetSession
  simp [hid, doGet_fault h]

/-! ### Field and pure-effect lemmas -/

theorem withDefaultCreatedAt_Id (now : Int) (s : Session) :
    (withDefaultCreatedAt now s).Id = s.Id := by
  unfold withDefaultCreatedAt
  split <;> rfl

theorem withDefaultCreatedAt_UserEmail (now : Int) (s : Session) :
    (withDefaultCreatedAt now s).UserEmail = s.UserEmail := by
  unfold withDefaultCreatedAt
  split <;> rfl

theorem withDefaultCreatedAt_RefreshToken (now : Int) (s : Session) :
    (withDefaultCreatedAt now s).RefreshToken = s.RefreshToken := by
  unfold withDefaultCreatedAt
  split <;> rfl

theorem withDefaultCreatedAt_IsRevoked (now : Int) (s : Session) :
    (withDefaultCreatedAt now s).IsRevoked = s.IsRevoked := by
  unfold withDefaultCreatedAt
  split <;> rfl

theorem withDefaultCreatedAt_ExpiresAt (now : Int) (s : Session) :
    (withDefaultCreatedAt now s).ExpiresAt = s.ExpiresAt := by
  unfold withDefaultCreatedAt
  split <;> rfl

theorem SetTypeOK_congr {st st' : RedisState} {k : String}
    (he : alookup st'.kv k = alookup st.kv k) (h : SetTypeOK st k) : SetTypeOK st' k := by
  rcases h with h | ⟨ms, t, h⟩
  · exact .inl (he.trans h)
  · exact .inr ⟨ms, t, he.trans h⟩

theorem saddPure_isSet {st : RedisState} {k : String} (mem : String)
    (hty : SetTypeOK st k) :
    ∃ ms t, alookup (saddPure st.kv k mem) k = some (.set ms, t) := by
  rcases hty with h | ⟨ms, t, h⟩
  · exact ⟨[mem], -1, by simp [saddPure, h, alookup_aset_self]⟩
  · exact ⟨if mem ∈ ms then ms else ms ++ [mem], t,
      by simp only [saddPure, h]; exact alookup_aset_self _ _ _⟩

theorem alookup_saddPure_ne {kv : List (String × (RVal × Int))} {k mem k' : String}
    (h : k ≠ k') : alookup (saddPure kv k mem) k' = alookup kv k' := by
  unfold saddPure
  rcases hl : alookup kv k with _ | ⟨v, t⟩
  · exact alookup_aset_ne _ _ _ _ h
  · rcases v with s | s | ms
    · rfl
    · rfl
    · exact alookup_aset_ne _ _ _ _ h

theorem alookup_sremPure_ne {kv : List (String × (RVal × Int))} {k mem k' : String}
    (h : k ≠ k') : alookup (sremPure kv k mem) k' = alookup kv k' := by
  unfold sremPure
  rcases hl : alookup kv k with _ | ⟨v, t⟩
  · rfl
  · rcases v with s | s | ms
    · rfl
    · rfl
    · dsimp only
      split
      · exact alookup_aerase_ne _ _ _ h
      · exact alookup_aset_ne _ _ _ _ h

theorem sremPure_self_not_mem {kv : List (String × (RVal × Int))} {k mem : String}
    {ms' : List String} {t : Int}
    (h : alookup (sremPure kv k mem) k = some (.set ms', t)) : mem ∉ ms' := by
  unfold sremPure at h
  rcases hl : alookup kv k with _ | ⟨v, t0⟩
  · rw [hl] at h
    rw [h] at hl
    simp at hl
  · rw [hl] at h
    rcases v with s | s | ms
    · rw [h] at hl
      simp at hl
    · rw [h] at hl
      simp at hl
    · dsimp only at h
      by_cases hf : ms.filter (fun x => x ≠ mem) = []
      · rw [if_pos hf] at h
        rw [alookup_aerase_self] at h
        simp at h
      · rw [if_neg hf] at h
        rw [alookup_aset_self] at h
        have hms : ms' = ms.filter (fun x => x ≠ mem) ∧ t = t0 := by
          simpa using h.symm
        obtain ⟨hms, -⟩ := hms
        subst hms
        intro hmem
        have := List.of_mem_filter hmem
        simp at this

theorem mgetVal_sess {kv : List (String × (RVal × Int))} {k : String} {s : Session}
    (h : mgetVal kv k = some (RVal.sess s)) :
    ∃ t, alookup kv k = some (.sess s, t) := by
  unfold mgetVal at h
  rcases hl : alookup kv k with _ | ⟨v, t⟩
  · rw [hl] at h
    simp at h
  · rw [hl] at h
    rcases v with s' | s' | ms
    · simp at h
    · simp at h
      exact ⟨t, by rw [h]⟩
    · simp at h

theorem kvWF_resolve {kv : List (String × (RVal × Int))} (hwf : kvWF kv = true)
    {x : String} {v : Session} {t : Int}
    (h : alookup kv (sessionKey x) = some (.sess v, t)) : v.Id = x := by
  induction kv with
  | nil => simp [alookup] at h
  | cons e rest ih =>
    obtain ⟨k, val, tt⟩ := e
    have hwf' : kvWF rest = true := by
      simp [kvWF] at hwf ⊢
      exact fun a b => hwf.2 a b
    unfold alookup at h
    by_cases hk : k = sessionKey x
    · rw [if_pos hk] at h
      cases val with
      | str s => simp at h
      | set ms => simp at h
      | sess v' =>
        have hkey : k = sessionKey v'.Id := by
          simp [kvWF] at hwf
          exact hwf.1
        have hv : v' = v ∧ tt = t := by simpa using h
        obtain ⟨hv, -⟩ := hv
        subst hv
        exact (sessionKey_inj (hkey.symm.trans hk)).symm ▸ rfl
    · rw [if_neg hk] at h
      exact ih hwf' h

/-- Every session in the output of the deserialisation/filter loop is
either carried over from the accumulator or comes from one of the `MGET`
positions and passes the owner / non-revoked filter. -/
theorem mem_buildSessions {email : String} {s : Session} (vals : List (Option RVal)) :
    ∀ acc : List Session, s ∈ buildSessions email vals acc →
      s ∈ acc ∨ (some (RVal.sess s) ∈ vals ∧ s.UserEmail = email ∧ s.IsRevoked = false) := by
  induction vals with
  | nil =>
    intro acc h
    exact .inl (by simpa [buildSessions] using h)
  | cons v rest ih =>
    intro acc h
    match v with
    | none =>
      rcases ih acc (by simpa [buildSessions] using h) with h' | h'
      · exact .inl h'
      · exact .inr ⟨List.mem_cons_of_mem _ h'.1, h'.2⟩
    | some (.str str) =>
      rcases ih acc (by simpa [buildSessions] using h) with h' | h'
      · exact .inl h'
      · exact .inr ⟨List.mem_cons_of_mem _ h'.1, h'.2⟩
    | some (.set ms) =>
      rcases ih acc (by simpa [buildSessions] using h) with h' | h'
      · exact .inl h'
      · exact .inr ⟨List.mem_cons_of_mem _ h'.1, h'.2⟩
    | some (.sess s') =>
      by_cases he : s'.UserEmail = email
      · by_cases hr : s'.IsRevoked = true
        · rcases ih acc (by simpa [buildSessions, he, hr] using h) with h' | h'
          · exact .inl h'
          · exact .inr ⟨List.mem_cons_of_mem _ h'.1, h'.2⟩
        · rcases ih (acc ++ [s']) (by simpa [buildSessions, he, hr] using h) with h' | h'
          · rcases List.mem_append.mp h' with h'' | h''
            · exact .inl h''
            · have hs : s = s' := by simpa using h''
              subst hs
              exact .inr ⟨List.mem_cons_self _ _, he, by simpa using hr⟩
          · exact .inr ⟨List.mem_cons_of_mem _ h'.1, h'.2⟩
      · rcases ih acc (by simpa [buildSessions, he] using h) with h' | h'
        · exact .inl h'
        · exact .inr ⟨List.mem_cons_of_mem _ h'.1, h'.2⟩

theorem doSMembers_inv {faults : List Nat} {k : String} {m : Exec}
    {res : List String} {m1 : Exec}
    (h : doSMembers faults k m = (some res, m1)) : m1.st = m.st := by
  unfold doSMembers at h
  split at h
  · simp at h
  · split at h <;> simp [tick] at h <;> rw [← h.2]

theorem doMGet_inv {faults : List Nat} {ks : List String} {m : Exec}
    {vals : List (Option RVal)} {m2 : Exec}
    (h : doMGet faults ks m = (some vals, m2)) :
    vals = ks.map (mgetVal m.st.kv) := by
  unfold doMGet at h
  split at h
  · simp at h
  · simp at h
    exact h.1.symm

/-- Every session returned by `GetSessionsByEmail` was resolved from the
store under some `session:` key. -/
theorem getSessionsByEmail_resolve {faults : List Nat} {email : String} {m m' : Exec}
    {l : List Session} (h : GetSessionsByEmail faults email m = (.ok l, m'))
    {x : Session} (hx : x ∈ l) :
    ∃ i t, alookup m.st.kv (sessionKey i) = some (.sess x, t) := by
  unfold GetSessionsByEmail at h
  split at h
  · simp at h
  · split at h
    · simp at h
    · split at h
      · simp at h
        obtain ⟨hl, -⟩ := h
        subst hl
        simp at hx
      · split at h
        · simp at h
        · rename_i m0 hne ids m1 heq1 hlen heq0 vals m2 heq2
          simp at h
          obtain ⟨hl, -⟩ := h
          subst hl
          rcases mem_buildSessions vals [] hx with h' | h'
          · simp at h'
          · have hv := h'.1
            rw [doMGet_inv heq2] at hv
            obtain ⟨key, hkey, hval⟩ := List.mem_map.mp hv
            obtain ⟨i, hi, rfl⟩ := List.mem_map.mp hkey
            obtain ⟨t, ht⟩ := mgetVal_sess hval
            rw [doSMembers_inv heq1] at ht
            exact ⟨i, t, ht⟩

/-! ### `RevokeSession` run lemmas -/

theorem revoke_run_ok {faults : List Nat} {now : Int} {id : String} {s0 : RedisState}
    {c0 : Nat} {j0 : List WOp} {sess : Session} {t0 : Int}
    (hid : id ≠ "") (h0 : c0 ∉ faults) (h1 : c0 + 1 ∉ faults) (h2 : c0 + 1 + 1 ∉ faults)
    (hl : alookup s0.kv (sessionKey id) = some (.sess sess, t0))
    (hrev : sess.IsRevoked = false) :
    RevokeSession faults now id ⟨s0, c0, j0⟩ =
      (.ok (),
       ⟨⟨aset (aset s0.kv (blacklistKey sess.RefreshToken)
              (.str "revoked",
               if sess.ExpiresAt - now ≤ 0 then timeMinute else sess.ExpiresAt - now))
            (sessionKey id)
            (.sess { sess with IsRevoked := true },
             if sess.ExpiresAt - now ≤ 0 then timeMinute else sess.ExpiresAt - now)⟩,
        c0 + 1 + 1 + 1,
        j0 ++ [.setStr (blacklistKey sess.RefreshToken) "revoked"
                 (if sess.ExpiresAt - now ≤ 0 then timeMinute else sess.ExpiresAt - now),
               .setSess (sessionKey id) { sess with IsRevoked := true }
                 (if sess.ExpiresAt - now ≤ 0 then timeMinute else sess.ExpiresAt - now)]⟩) := by
  unfold RevokeSession
  rw [getSession_found hid h0 hl]
  simp [hid, hrev, doWrite_setStr h1, doWrite_setSess h2]

theorem revoke_run_getFault {faults : List Nat} {now : Int} {id : String} {s0 : RedisState}
    {c0 : Nat} {j0 : List WOp} (hid : id ≠ "") (h0 : c0 ∈ faults) :
    RevokeSession faults now id ⟨s0, c0, j0⟩ = (.error .getFailed, ⟨s0, c0 + 1, j0⟩) := by
  unfold RevokeSession
  rw [getSession_fault hid h0]
  simp [hid]

theorem revoke_run_notFound {faults : List Nat} {now : Int} {id : String} {s0 : RedisState}
    {c0 : Nat} {j0 : List WOp} (hid : id ≠ "") (h0 : c0 ∉ faults)
    (hl : alookup s0.kv (sessionKey id) = none) :
    RevokeSession faults now id ⟨s0, c0, j0⟩ =
      (.error (.sessionNotFound id), ⟨s0, c0 + 1, j0⟩) := by
  unfold RevokeSession
  rw [getSession_notFound hid h0 hl]
  simp [hid]

theorem revoke_run_already {faults : List Nat} {now : Int} {id : String} {s0 : RedisState}
    {c0 : Nat} {j0 : List WOp} {sess : Session} {t0 : Int}
    (hid : id ≠ "") (h0 : c0 ∉ faults)
    (hl : alookup s0.kv (sessionKey id) = some (.sess sess, t0))
    (hrev : sess.IsRevoked = true) :
    RevokeSession faults now id ⟨s0, c0, j0⟩ = (.error .alreadyRevoked, ⟨s0, c0 + 1, j0⟩) := by
  unfold RevokeSession
  rw [getSession_found hid h0 hl]
  simp [hid, hrev]

theorem revoke_run_blFault {faults : List Nat} {now : Int} {id : String} {s0 : RedisState}
    {c0 : Nat} {j0 : List WOp} {sess : Session} {t0 : Int}
    (hid : id ≠ "") (h0 : c0 ∉ faults) (h1 : c0 + 1 ∈ faults)
    (hl : alookup s0.kv (sessionKey id) = some (.sess sess, t0))
    (hrev : sess.IsRevoked = false) :
    RevokeSession faults now id ⟨s0, c0, j0⟩ =
      (.error .blacklistAddFailed, ⟨s0, c0 + 1 + 1, j0⟩) := by
  unfold RevokeSession
  rw [getSession_found hid h0 hl]
  simp [hid, hrev, doWrite_fault h1]

theorem revoke_run_updFault {faults : List Nat} {now : Int} {id : String} {s0 : RedisState}
    {c0 : Nat} {j0 : List WOp} {sess : Session} {t0 : Int}
    (hid : id ≠ "") (h0 : c0 ∉ faults) (h1 : c0 + 1 ∉ faults) (h2 : c0 + 1 + 1 ∈ faults)
    (hl : alookup s0.kv (sessionKey id) = some (.sess sess, t0))
    (hrev : sess.IsRevoked = false) :
    RevokeSession faults now id ⟨s0, c0, j0⟩ =
      (.error .updateFailed,
       ⟨⟨aset s0.kv (blacklistKey sess.RefreshToken)
           (.str "revoked",
            if sess.ExpiresAt - now ≤ 0 then timeMinute else sess.ExpiresAt - now)⟩,
        c0 + 1 + 1 + 1,
        j0 ++ [.setStr (blacklistKey sess.RefreshToken) "revoked"
                 (if sess.ExpiresAt - now ≤ 0 then timeMinute else sess.ExpiresAt - now)]⟩) := by
  unfold RevokeSession
  rw [getSession_found hid h0 hl]
  simp [hid, hrev, doWrite_setStr h1, doWrite_fault h2]

/-- A successful `CreateSession` returns exactly the stored session: the
input with only `CreatedAt` possibly defaulted. -/
theorem createSession_ok_inv {faults : List Nat} {now : Int} {sess : Session} {m : Exec}
    {s' : Session} {m2 : Exec} (h : CreateSession faults now sess m = (.ok s', m2)) :
    s' = withDefaultCreatedAt now sess := by
  simp only [CreateSession] at h
  split at h
  · simp at h
  · split at h
    · simp at h
    · split at h
      · simp at h
      · split at h
        · simp at h
        · split at h
          · simp at h
          · split at h
            · simp at h
            · split at h
              · simp at h
              · split at h
                · simp at h
                · simp at h
                  exact h.1.symm

/-! ### Claim theorems -/

/-- C10: every public operation taking a string key — `GetSession`,
`GetSessionsByEmail`, `RevokeSession`, `DeleteSession`,
`IsTokenBlacklisted` — called with the empty string fails immediately
with a validation error and performs no backend call: the machine (store,
call counter, journal) is returned unchanged. -/
theorem empty_key_guards (faults : List Nat) (now : Int) (m : Exec) :
    GetSession faults "" m = (.error .sessionIdRequired, m) ∧
    GetSessionsByEmail faults "" m = (.error .userEmailRequired, m) ∧
    RevokeSession faults now "" m = (.error .sessionIdRequired, m) ∧
    DeleteSession faults now "" m = (.error .sessionIdRequired, m) ∧
    IsTokenBlacklisted faults "" m = (.error .tokenRequired, m) ∧
    GoErr.sessionIdRequired.isValidation = true ∧
    GoErr.userEmailRequired.isValidation = true ∧
    GoErr.tokenRequired.isValidation = true := by
  refine ⟨rfl, rfl, rfl, rfl, rfl, rfl, rfl, rfl⟩

/-- C9 (amended): for every non-empty token and fault-free backend,
`IsTokenBlacklisted` returns exactly the existence of the blacklist key
— in particular a merely-absent token yields `(false, no error)`.  The
empty token is rejected by a validation guard instead (see the
counterexample). -/
theorem isTokenBlacklisted_spec (token : String) (m : Exec) (h : token ≠ "") :
    (IsTokenBlacklisted [] token m).1 =
      .ok (alookup m.st.kv (blacklistKey token)).isSome ∧
    (alookup m.st.kv (blacklistKey token) = none →
      (IsTokenBlacklisted [] token m).1 = .ok false) := by
  constructor
  · simp [IsTokenBlacklisted, doExists, h]
  · intro h2
    simp [IsTokenBlacklisted, doExists, h, h2]

/-- C9 counterexample: the empty token is not present in the (empty)
blacklist, yet `IsTokenBlacklisted` returns an error — a validation
error, with no backend failure (no backend call is even made) — rather
than `(false, no error)`. -/
theorem isTokenBlacklisted_empty_token_error :
    (IsTokenBlacklisted [] "" ⟨⟨[]⟩, 0, []⟩).1 = .error .tokenRequired ∧
    alookup (⟨[]⟩ : RedisState).kv (blacklistKey "") = none ∧
    (IsTokenBlacklisted [] "" ⟨⟨[]⟩, 0, []⟩).2.calls = 0 ∧
    GoErr.tokenRequired.isValidation = true := by
  exact ⟨rfl, rfl, rfl, rfl⟩

/-- C9 witness. -/
theorem isTokenBlacklisted_spec_witness :
    (IsTokenBlacklisted [] "t1" ⟨⟨[]⟩, 0, []⟩).1 = .ok false :=
  (isTokenBlacklisted_spec "t1" ⟨⟨[]⟩, 0, []⟩ (by decide)).2 rfl

/-- C6: `CreateSession` with `ExpiresAt ≤ now` fails with a validation
error and performs no backend interaction at all: the machine (store,
call counter, journal) is returned unchanged. -/
theorem create_expired_validation (faults : List Nat) (now : Int) (sess : Session)
    (m : Exec) (h : sess.ExpiresAt ≤ now) :
    (CreateSession faults now sess m).2 = m ∧
    ∃ e, (CreateSession faults now sess m).1 = Except.error e ∧ e.isValidation = true := by
  have httl : sess.ExpiresAt - now ≤ 0 := by omega
  unfold CreateSession
  by_cases h1 : sess.Id = ""
  · exact ⟨by simp [h1], .sessionIdRequired, by simp [h1], rfl⟩
  by_cases h2 : sess.UserEmail = ""
  · exact ⟨by simp [h1, h2], .userEmailRequired, by simp [h1, h2], rfl⟩
  by_cases h3 : sess.RefreshToken = ""
  · exact ⟨by simp [h1, h2, h3], .refreshTokenRequired, by simp [h1, h2, h3], rfl⟩
  by_cases h4 : sess.ExpiresAt = 0
  · exact ⟨by simp [h1, h2, h3, withDefaultCreatedAt_ExpiresAt, h4], .expirationRequired,
      by simp [h1, h2, h3, withDefaultCreatedAt_ExpiresAt, h4], rfl⟩
  · exact ⟨by simp [h1, h2, h3, withDefaultCreatedAt_ExpiresAt, h4, httl],
      .expirationNotFuture,
      by simp [h1, h2, h3, withDefaultCreatedAt_ExpiresAt, h4, httl], rfl⟩

/-- C6 witness. -/
theorem create_expired_validation_witness :
    (CreateSession [] 100 ⟨"s1", "a@b.com", "t1", false, 0, 50⟩ ⟨⟨[]⟩, 0, []⟩).2
        = ⟨⟨[]⟩, 0, []⟩ ∧
    ∃ e, (CreateSession [] 100 ⟨"s1", "a@b.com", "t1", false, 0, 50⟩ ⟨⟨[]⟩, 0, []⟩).1
        = Except.error e ∧ e.isValidation = true :=
  create_expired_validation [] 100 ⟨"s1", "a@b.com", "t1", false, 0, 50⟩ ⟨⟨[]⟩, 0, []⟩
    (by decide)

/-- C5: whatever the index / store state (missing, corrupted, revoked or
foreign-owned entries included) and fault schedule, a successful
`GetSessionsByEmail` returns only sessions owned by the queried email
and not revoked. -/
theorem getSessionsByEmail_filter (faults : List Nat) (email : String) (m m' : Exec)
    (l : List Session) (h : GetSessionsByEmail faults email m = (Except.ok l, m')) :
    ∀ s ∈ l, s.UserEmail = email ∧ s.IsRevoked = false := by
  intro s hs
  unfold GetSessionsByEmail at h
  split at h
  · simp at h
  · split at h
    · simp at h
    · split at h
      · simp at h
        obtain ⟨hl, -⟩ := h
        subst hl
        simp at hs
      · split at h
        · simp at h
        · simp at h
          obtain ⟨hl, -⟩ := h
          subst hl
          rcases mem_buildSessions _ _ hs with h' | h'
          · simp at h'
          · exact ⟨h'.2.1, by simpa using h'.2.2⟩

/-- C2: `RevokeSession` on a non-existent id fails with the not-found
error; on an existing non-revoked session the first revoke succeeds, a
second revoke on the same id fails with the already-revoked error, and
`IsTokenBlacklisted` of that session's refresh token is `true` after the
first revoke. -/
theorem revoke_semantics (now now2 : Int) (id : String) (s0 : RedisState)
    (sess : Session) (t0 : Int) (hid : id ≠ "") (htok : sess.RefreshToken ≠ "") :
    (alookup s0.kv (sessionKey id) = none →
      RevokeSession [] now id ⟨s0, 0, []⟩ = (.error (.sessionNotFound id), ⟨s0, 1, []⟩)) ∧
    (alookup s0.kv (sessionKey id) = some (.sess sess, t0) → sess.IsRevoked = false →
      (RevokeSession [] now id ⟨s0, 0, []⟩).1 = .ok () ∧
      (RevokeSession [] now2 id (RevokeSession [] now id ⟨s0, 0, []⟩).2).1 =
        .error .alreadyRevoked ∧
      (IsTokenBlacklisted [] sess.RefreshToken (RevokeSession [] now id ⟨s0, 0, []⟩).2).1 =
        .ok true) := by
  constructor
  · intro hl
    exact revoke_run_notFound hid (by simp) hl
  · intro hl hrev
    rw [revoke_run_ok hid (by simp) (by simp) (by simp) hl hrev]
    refine ⟨rfl, ?_, ?_⟩
    · rw [revoke_run_already hid (by simp) (alookup_aset_self _ _ _) rfl]
    · simp [IsTokenBlacklisted, doExists, htok,
        alookup_aset_ne _ _ _ _ (sessionKey_ne_blacklistKey id sess.RefreshToken),
        alookup_aset_self]

/-- C2 witness. -/
theorem revoke_semantics_witness :
    (RevokeSession [] 10 "s1"
        ⟨⟨[("session:s1", (RVal.sess ⟨"s1", "a@b.com", "t1", false, 1, 100⟩, 90))]⟩,
         0, []⟩).1 = .ok () ∧
    (RevokeSession [] 20 "s1"
        (RevokeSession [] 10 "s1"
          ⟨⟨[("session:s1", (RVal.sess ⟨"s1", "a@b.com", "t1", false, 1, 100⟩, 90))]⟩,
           0, []⟩).2).1 = .error .alreadyRevoked ∧
    (IsTokenBlacklisted [] "t1"
        (RevokeSession [] 10 "s1"
          ⟨⟨[("session:s1", (RVal.sess ⟨"s1", "a@b.com", "t1", false, 1, 100⟩, 90))]⟩,
           0, []⟩).2).1 = .ok true :=
  (revoke_semantics 10 20 "s1"
      ⟨[("session:s1", (RVal.sess ⟨"s1", "a@b.com", "t1", false, 1, 100⟩, 90))]⟩
      ⟨"s1", "a@b.com", "t1", false, 1, 100⟩ 90 (by decide) (by decide)).2
    (by decide) rfl

/-- C7 (amended): on an existing non-revoked session, the record update
inside `RevokeSession` rewrites exactly the fetched record with
`IsRevoked` set to `true` and every other field unchanged, under a TTL
of `ExpiresAt - now` when that is positive — and otherwise the same
one-minute clamp that the blacklist entry uses, rather than the
(non-positive) `ExpiresAt - now` the original claim prescribes. -/
theorem revoke_record_update (now : Int) (id : String) (s0 : RedisState)
    (sess : Session) (t0 : Int) (hid : id ≠ "")
    (hl : alookup s0.kv (sessionKey id) = some (.sess sess, t0))
    (hrev : sess.IsRevoked = false) :
    alookup (RevokeSession [] now id ⟨s0, 0, []⟩).2.st.kv (sessionKey id) =
      some (.sess { sess with IsRevoked := true },
            if sess.ExpiresAt - now ≤ 0 then timeMinute else sess.ExpiresAt - now) ∧
    ({ sess with IsRevoked := true }).Id = sess.Id ∧
    ({ sess with IsRevoked := true }).UserEmail = sess.UserEmail ∧
    ({ sess with IsRevoked := true }).RefreshToken = sess.RefreshToken ∧
    ({ sess with IsRevoked := true }).CreatedAt = sess.CreatedAt ∧
    ({ sess with IsRevoked := true }).ExpiresAt = sess.ExpiresAt := by
  rw [revoke_run_ok hid (by simp) (by simp) (by simp) hl hrev]
  exact ⟨alookup_aset_self _ _ _, rfl, rfl, rfl, rfl, rfl⟩

/-- C7 witness (future expiry: the stored TTL is `ExpiresAt - now`). -/
theorem revoke_record_update_witness :
    alookup (RevokeSession [] 10 "s1"
        ⟨⟨[("session:s1", (RVal.sess ⟨"s1", "a@b.com", "t1", false, 1, 100⟩, 90))]⟩,
         0, []⟩).2.st.kv (sessionKey "s1") =
      some (RVal.sess ⟨"s1", "a@b.com", "t1", true, 1, 100⟩, 90) :=
  (revoke_record_update 10 "s1"
      ⟨[("session:s1", (RVal.sess ⟨"s1", "a@b.com", "t1", false, 1, 100⟩, 90))]⟩
      ⟨"s1", "a@b.com", "t1", false, 1, 100⟩ 90 (by decide) (by decide) rfl).1

/-- C7 counterexample: on an existing non-revoked but already-expired
session (`ExpiresAt = 100 ≤ now = 200`), the record rewrite stores TTL
`timeMinute`, not `ExpiresAt - now = -100`: the TTL grows, contradicting
the claim's "TTL re-derived as expiresAt - now — shrinking, never
growing". -/
theorem revoke_record_update_counterexample :
    alookup (RevokeSession [] 200 "s1"
        ⟨⟨[("session:s1", (RVal.sess ⟨"s1", "a@b.com", "t1", false, 1, 100⟩, 5))]⟩,
         0, []⟩).2.st.kv (sessionKey "s1") =
      some (RVal.sess ⟨"s1", "a@b.com", "t1", true, 1, 100⟩, timeMinute) ∧
    (100 : Int) - 200 < timeMinute ∧ timeMinute ≠ (100 : Int) - 200 := by
  refine ⟨by decide, by decide, by decide⟩

/-- C1: for a valid create request, (i) when the index TTL-refresh step
(3rd backend call) fails after the union-insert succeeded, the
just-created record is deleted, the partial index entry is removed and
the error is returned; (ii) when the union-insert itself (2nd call)
fails, the record is rolled back and the error is returned; (iii) when
the record write (1st call) fails, no index mutation — indeed no state
mutation at all — is attempted. -/
theorem create_rollback (now : Int) (sess : Session) (s0 : RedisState)
    (hid : sess.Id ≠ "") (hem : sess.UserEmail ≠ "") (htok : sess.RefreshToken ≠ "")
    (hnow : 0 ≤ now) (hexp : now < sess.ExpiresAt)
    (husk : SetTypeOK s0 (userSessionsKey sess.UserEmail)) :
    ((CreateSession [2] now sess ⟨s0, 0, []⟩).1 = .error .indexExpireFailed ∧
     alookup (CreateSession [2] now sess ⟨s0, 0, []⟩).2.st.kv (sessionKey sess.Id) = none ∧
     (∀ ms t, alookup (CreateSession [2] now sess ⟨s0, 0, []⟩).2.st.kv
         (userSessionsKey sess.UserEmail) = some (.set ms, t) → sess.Id ∉ ms)) ∧
    ((CreateSession [1] now sess ⟨s0, 0, []⟩).1 = .error .indexFailed ∧
     alookup (CreateSession [1] now sess ⟨s0, 0, []⟩).2.st.kv (sessionKey sess.Id) = none) ∧
    ((CreateSession [0] now sess ⟨s0, 0, []⟩).1 = .error .saveFailed ∧
     (CreateSession [0] now sess ⟨s0, 0, []⟩).2 = ⟨s0, 1, []⟩) := by
  have hz : ¬ sess.ExpiresAt = 0 := by omega
  have ht : ¬ (sess.ExpiresAt - now ≤ 0) := by omega
  have husk1 : SetTypeOK
      ⟨aset s0.kv (sessionKey sess.Id)
        (.sess (withDefaultCreatedAt now sess), sess.ExpiresAt - now)⟩
      (userSessionsKey sess.UserEmail) :=
    SetTypeOK_congr
      (alookup_aset_ne _ _ _ _ (sessionKey_ne_userSessionsKey sess.Id sess.UserEmail)) husk
  obtain ⟨ms2, t2, hms2⟩ := saddPure_isSet sess.Id husk1
  have husk3 : SetTypeOK
      ⟨aerase (saddPure
          (aset s0.kv (sessionKey sess.Id)
            (.sess (withDefaultCreatedAt now sess), sess.ExpiresAt - now))
          (userSessionsKey sess.UserEmail) sess.Id) (sessionKey sess.Id)⟩
      (userSessionsKey sess.UserEmail) :=
    SetTypeOK_congr
      (alookup_aerase_ne _ _ _ (sessionKey_ne_userSessionsKey sess.Id sess.UserEmail))
      (.inr ⟨ms2, t2, hms2⟩)
  have runC : CreateSession [2] now sess ⟨s0, 0, []⟩ =
      (.error .indexExpireFailed,
       ⟨⟨sremPure
           (aerase (saddPure
               (aset s0.kv (sessionKey sess.Id)
                 (.sess (withDefaultCreatedAt now sess), sess.ExpiresAt - now))
               (userSessionsKey sess.UserEmail) sess.Id) (sessionKey sess.Id))
           (userSessionsKey sess.UserEmail) sess.Id⟩,
        5,
        [.setSess (sessionKey sess.Id) (withDefaultCreatedAt now sess) (sess.ExpiresAt - now),
         .sadd (userSessionsKey sess.UserEmail) sess.Id,
         .del (sessionKey sess.Id),
         .srem (userSessionsKey sess.UserEmail) sess.Id]⟩) := by
    unfold CreateSession
    simp [hid, hem, htok, withDefaultCreatedAt_Id, withDefaultCreatedAt_UserEmail,
      withDefaultCreatedAt_RefreshToken, withDefaultCreatedAt_ExpiresAt, hz, ht,
      doWrite_setSess (show (0 : Nat) ∉ [2] by decide),
      doWrite_sadd (show (1 : Nat) ∉ [2] by decide) husk1,
      doWrite_fault (show (2 : Nat) ∈ [2] by decide),
      doWrite_del (show (3 : Nat) ∉ [2] by decide),
      doWrite_srem (show (4 : Nat) ∉ [2] by decide) husk3]
  have runB : CreateSession [1] now sess ⟨s0, 0, []⟩ =
      (.error .indexFailed,
       ⟨⟨aerase (aset s0.kv (sessionKey sess.Id)
            (.sess (withDefaultCreatedAt now sess), sess.ExpiresAt - now))
          (sessionKey sess.Id)⟩,
        3,
        [.setSess (sessionKey sess.Id) (withDefaultCreatedAt now sess) (sess.ExpiresAt - now),
         .del (sessionKey sess.Id)]⟩) := by
    unfold CreateSession
    simp [hid, hem, htok, withDefaultCreatedAt_Id, withDefaultCreatedAt_UserEmail,
      withDefaultCreatedAt_RefreshToken, withDefaultCreatedAt_ExpiresAt, hz, ht,
      doWrite_setSess (show (0 : Nat) ∉ [1] by decide),
      doWrite_fault (show (1 : Nat) ∈ [1] by decide),
      doWrite_del (show (2 : Nat) ∉ [1] by decide)]
  have runA : CreateSession [0] now sess ⟨s0, 0, []⟩ = (.error .saveFailed, ⟨s0, 1, []⟩) := by
    unfold CreateSession
    simp [hid, hem, htok, withDefaultCreatedAt_Id, withDefaultCreatedAt_UserEmail,
      withDefaultCreatedAt_RefreshToken, withDefaultCreatedAt_ExpiresAt, hz, ht,
      doWrite_fault (show (0 : Nat) ∈ [0] by decide)]
  refine ⟨⟨?_, ?_, ?_⟩, ⟨?_, ?_⟩, ⟨?_, ?_⟩⟩
  · rw [runC]
  · rw [runC]
    show alookup (sremPure _ (userSessionsKey sess.UserEmail) sess.Id) (sessionKey sess.Id)
      = none
    rw [alookup_sremPure_ne
      (Ne.symm (sessionKey_ne_userSessionsKey sess.Id sess.UserEmail))]
    exact alookup_aerase_self _ _
  · intro ms t hms
    rw [runC] at hms
    exact sremPure_self_not_mem hms
  · rw [runB]
  · rw [runB]
    exact alookup_aerase_self _ _
  · rw [runA]
  · rw [runA]

/-- C1 witness. -/
theorem create_rollback_witness :
    (CreateSession [2] 10 ⟨"s1", "a@b.com", "t1", false, 0, 100⟩ ⟨⟨[]⟩, 0, []⟩).1 =
      .error .indexExpireFailed ∧
    alookup (CreateSession [2] 10 ⟨"s1", "a@b.com", "t1", false, 0, 100⟩
        ⟨⟨[]⟩, 0, []⟩).2.st.kv (sessionKey "s1") = none ∧
    (CreateSession [0] 10 ⟨"s1", "a@b.com", "t1", false, 0, 100⟩ ⟨⟨[]⟩, 0, []⟩).2 =
      ⟨⟨[]⟩, 1, []⟩ :=
  have h := create_rollback 10 ⟨"s1", "a@b.com", "t1", false, 0, 100⟩ ⟨[]⟩
    (by decide) (by decide) (by decide) (by decide) (by decide) (.inl rfl)
  ⟨h.1.1, h.1.2.1, h.2.2.2⟩

/-- C3: after a successful `DeleteSession` of an existing session:
`GetSession` of the id fails with the not-found error,
`GetSessionsByEmail` of the owner no longer contains a session with that
id, and `IsTokenBlacklisted` of the record's refresh token is `true`. -/
theorem delete_semantics (now : Int) (id : String) (s0 : RedisState) (sess : Session)
    (t0 : Int) (hid : id ≠ "") (htok : sess.RefreshToken ≠ "")
    (hl : alookup s0.kv (sessionKey id) = some (.sess sess, t0))
    (husk : SetTypeOK s0 (userSessionsKey sess.UserEmail))
    (hwf : kvWF s0.kv = true) :
    (DeleteSession [] now id ⟨s0, 0, []⟩).1 = .ok () ∧
    (GetSession [] id (DeleteSession [] now id ⟨s0, 0, []⟩).2).1 =
      .error (.sessionNotFound id) ∧
    (IsTokenBlacklisted [] sess.RefreshToken (DeleteSession [] now id ⟨s0, 0, []⟩).2).1 =
      .ok true ∧
    (∀ l m2, GetSessionsByEmail [] sess.UserEmail (DeleteSession [] now id ⟨s0, 0, []⟩).2 =
        (.ok l, m2) → ∀ x ∈ l, x.Id ≠ id) := by
  have husk1 : SetTypeOK
      ⟨aset s0.kv (blacklistKey sess.RefreshToken)
        (.str "deleted", if sess.ExpiresAt ≤ now then timeMinute else sess.ExpiresAt - now)⟩
      (userSessionsKey sess.UserEmail) :=
    SetTypeOK_congr
      (alookup_aset_ne _ _ _ _
        (blacklistKey_ne_userSessionsKey sess.RefreshToken sess.UserEmail)) husk
  have runD : DeleteSession [] now id ⟨s0, 0, []⟩ =
      (.ok (),
       ⟨⟨aerase (sremPure
           (aset s0.kv (blacklistKey sess.RefreshToken)
             (.str "deleted",
              if sess.ExpiresAt - now ≤ 0 then timeMinute else sess.ExpiresAt - now))
           (userSessionsKey sess.UserEmail) id) (sessionKey id)⟩,
        4,
        [.setStr (blacklistKey sess.RefreshToken) "deleted"
           (if sess.ExpiresAt - now ≤ 0 then timeMinute else sess.ExpiresAt - now),
         .srem (userSessionsKey sess.UserEmail) id,
         .del (sessionKey id)]⟩) := by
    unfold DeleteSession
    rw [getSession_found hid (show (0 : Nat) ∉ ([] : List Nat) by decide) hl]
    simp [hid, doWrite_setStr (show (1 : Nat) ∉ ([] : List Nat) by decide),
      doWrite_srem (show (2 : Nat) ∉ ([] : List Nat) by decide) husk1,
      doWrite_del (show (3 : Nat) ∉ ([] : List Nat) by decide)]
  refine ⟨?_, ?_, ?_, ?_⟩
  · rw [runD]
  · rw [runD]
    rw [getSession_notFound hid (show (4 : Nat) ∉ ([] : List Nat) by decide)
      (alookup_aerase_self _ _)]
  · rw [runD]
    unfold IsTokenBlacklisted doExists
    simp [htok]
    rw [alookup_aerase_ne _ _ _ (sessionKey_ne_blacklistKey id sess.RefreshToken),
      alookup_sremPure_ne
        (Ne.symm (blacklistKey_ne_userSessionsKey sess.RefreshToken sess.UserEmail)),
      alookup_aset_self]
    rfl
  · intro l m2 hrun x hx
    rw [runD] at hrun
    obtain ⟨i, t, hres⟩ := getSessionsByEmail_resolve hrun hx
    by_cases hii : i = id
    · subst hii
      rw [alookup_aerase_self] at hres
      simp at hres
    · rw [alookup_aerase_ne _ _ _ (fun hc => hii (sessionKey_inj hc).symm)] at hres
      rw [alookup_sremPure_ne
        (Ne.symm (sessionKey_ne_userSessionsKey i sess.UserEmail))] at hres
      rw [alookup_aset_ne _ _ _ _
        (Ne.symm (sessionKey_ne_blacklistKey i sess.RefreshToken))] at hres
      have hxi := kvWF_resolve hwf hres
      rw [hxi]
      exact hii

/-- C3 witness: deleting `s1` leaves only `s2` listed for the user, the
deleted id unresolvable, and its token blacklisted. -/
theorem delete_semantics_witness :
    (DeleteSession [] 10 "s1"
        ⟨⟨[("session:s1", (RVal.sess ⟨"s1", "a@b.com", "t1", false, 1, 100⟩, 90)),
           ("session:s2", (RVal.sess ⟨"s2", "a@b.com", "t2", false, 1, 100⟩, 90)),
           ("user_sessions:a@b.com", (RVal.set ["s1", "s2"], 90))]⟩, 0, []⟩).1 = .ok () ∧
    (GetSession [] "s1"
        (DeleteSession [] 10 "s1"
          ⟨⟨[("session:s1", (RVal.sess ⟨"s1", "a@b.com", "t1", false, 1, 100⟩, 90)),
             ("session:s2", (RVal.sess ⟨"s2", "a@b.com", "t2", false, 1, 100⟩, 90)),
             ("user_sessions:a@b.com", (RVal.set ["s1", "s2"], 90))]⟩, 0, []⟩).2).1 =
      .error (.sessionNotFound "s1") ∧
    (⟨"s2", "a@b.com", "t2", false, 1, 100⟩ : Session).Id ≠ "s1" :=
  have h := delete_semantics 10 "s1"
    ⟨[("session:s1", (RVal.sess ⟨"s1", "a@b.com", "t1", false, 1, 100⟩, 90)),
      ("session:s2", (RVal.sess ⟨"s2", "a@b.com", "t2", false, 1, 100⟩, 90)),
      ("user_sessions:a@b.com", (RVal.set ["s1", "s2"], 90))]⟩
    ⟨"s1", "a@b.com", "t1", false, 1, 100⟩ 90 (by decide) (by decide) (by decide)
    (.inr ⟨["s1", "s2"], 90, by decide⟩) (by decide)
  ⟨h.1, h.2.1,
   h.2.2.2 [⟨"s2", "a@b.com", "t2", false, 1, 100⟩]
     ⟨⟨[("session:s2", (RVal.sess ⟨"s2", "a@b.com", "t2", false, 1, 100⟩, 90)),
        ("user_sessions:a@b.com", (RVal.set ["s2"], 90)),
        ("blacklist:t1", (RVal.str "deleted", 90))]⟩, 6,
      [.setStr "blacklist:t1" "deleted" 90,
       .srem "user_sessions:a@b.com" "s1",
       .del "session:s1"]⟩ (by decide)
     ⟨"s2", "a@b.com", "t2", false, 1, 100⟩ (by decide)⟩

/-- C4: in every execution of `RevokeSession` on a session that exists
and is not yet revoked — under any fault schedule — a record update for
the session key appears in the write journal only strictly after the
blacklist write for the record's refresh token; and replaying any
crash-truncated position of the journal never gives a state where the
record shows `IsRevoked = true` while the token is absent from the
blacklist. -/
theorem revoke_blacklist_ordering (faults : List Nat) (now : Int) (id : String)
    (s0 : RedisState) (sess : Session) (t0 : Int)
    (hl : alookup s0.kv (sessionKey id) = some (.sess sess, t0))
    (hrev : sess.IsRevoked = false) :
    (∀ i v ttl,
       (RevokeSession faults now id ⟨s0, 0, []⟩).2.journal.get? i =
         some (.setSess (sessionKey id) v ttl) →
       ∃ jx ttl2, jx < i ∧
         (RevokeSession faults now id ⟨s0, 0, []⟩).2.journal.get? jx =
           some (.setStr (blacklistKey sess.RefreshToken) "revoked" ttl2)) ∧
    (∀ n, revokeSafe s0 id sess.RefreshToken
        ((RevokeSession faults now id ⟨s0, 0, []⟩).2.journal.take n) = true) := by
  have hsafe0 : revokeSafe s0 id sess.RefreshToken [] = true := by
    simp [revokeSafe, applyAll, hl, hrev]
  have hsafe1 : revokeSafe s0 id sess.RefreshToken
      [.setStr (blacklistKey sess.RefreshToken) "revoked"
        (if sess.ExpiresAt - now ≤ 0 then timeMinute else sess.ExpiresAt - now)] = true := by
    simp [revokeSafe, applyAll, applyW,
      alookup_aset_ne _ _ _ _ (Ne.symm (sessionKey_ne_blacklistKey id sess.RefreshToken)),
      hl, hrev]
  by_cases hid : id = ""
  · subst hid
    constructor
    · intro i v ttl h
      simp [RevokeSession] at h
    · intro n
      simp [RevokeSession]
      exact hsafe0
  · by_cases h0 : 0 ∈ faults
    · rw [revoke_run_getFault hid h0]
      constructor
      · intro i v ttl h
        simp at h
      · intro n
        simpa using hsafe0
    · by_cases h1 : 0 + 1 ∈ faults
      · rw [revoke_run_blFault hid h0 h1 hl hrev]
        constructor
        · intro i v ttl h
          simp at h
        · intro n
          simpa using hsafe0
      · by_cases h2 : 0 + 1 + 1 ∈ faults
        · rw [revoke_run_updFault hid h0 h1 h2 hl hrev]
          constructor
          · intro i v ttl h
            rcases i with _ | i <;> simp at h
          · intro n
            rcases n with _ | n
            · simpa using hsafe0
            · simpa using hsafe1
        · rw [revoke_run_ok hid h0 h1 h2 hl hrev]
          constructor
          · intro i v ttl h
            rcases i with _ | i
            · simp at h
            · rcases i with _ | i
              · refine ⟨0, if sess.ExpiresAt - now ≤ 0 then timeMinute
                  else sess.ExpiresAt - now, by omega, rfl⟩
              · simp at h
          · intro n
            rcases n with _ | n
            · simpa using hsafe0
            · rcases n with _ | n
              · simpa using hsafe1
              · have : revokeSafe s0 id sess.RefreshToken
                    [.setStr (blacklistKey sess.RefreshToken) "revoked"
                       (if sess.ExpiresAt - now ≤ 0 then timeMinute else sess.ExpiresAt - now),
                     .setSess (sessionKey id) { sess with IsRevoked := true }
                       (if sess.ExpiresAt - now ≤ 0 then timeMinute
                        else sess.ExpiresAt - now)] = true := by
                  simp [revokeSafe, applyAll, applyW, alookup_aset_self,
                    alookup_aset_ne _ _ _ _ (sessionKey_ne_blacklistKey id sess.RefreshToken)]
                simpa using this
/-- C4 witness: the crash window after the blacklist write of a concrete
fault-free revoke is safe. -/
theorem revoke_blacklist_ordering_witness :
    revokeSafe ⟨[("session:s1", (RVal.sess ⟨"s1", "a@b.com", "t1", false, 1, 100⟩, 90))]⟩
      "s1" "t1"
      ((RevokeSession [] 10 "s1"
          ⟨⟨[("session:s1", (RVal.sess ⟨"s1", "a@b.com", "t1", false, 1, 100⟩, 90))]⟩,
           0, []⟩).2.journal.take 1) = true :=
  (revoke_blacklist_ordering [] 10 "s1"
      ⟨[("session:s1", (RVal.sess ⟨"s1", "a@b.com", "t1", false, 1, 100⟩, 90))]⟩
      ⟨"s1", "a@b.com", "t1", false, 1, 100⟩ 90 (by decide) rfl).2 1

/-- C8 (amended): the server's `CreateSession` always computes
`ExpiresAt` as `now + GetSessionTTL` from the configured TTL policy,
overwriting any caller-supplied `ExpiresAt` — the caller's value is
never passed through to the record store. -/
theorem serverCreate_expiry (days : Int) (faults : List Nat) (now : Int)
    (req : SessionReq) (m : Exec) (res : SessionRes) (m2 : Exec)
    (h : ServerCreateSession days faults now req m = (.ok res, m2)) :
    res.ExpiresAt = now + GetSessionTTL days := by
  simp only [ServerCreateSession] at h
  split at h
  · simp at h
  · split at h
    · simp at h
    · split at h
      · simp at h
      · rename_i created mx heq
        simp at h
        obtain ⟨hres, -⟩ := h
        have hc := createSession_ok_inv heq
        calc res.ExpiresAt
            = (ConvertSessionToProto created).ExpiresAt := by rw [hres]
          _ = created.ExpiresAt := rfl
          _ = now + GetSessionTTL days := by rw [hc, withDefaultCreatedAt_ExpiresAt]

/-- C8 counterexample: the caller sets `ExpiresAt = 999`, yet the
created session is stored and returned with
`ExpiresAt = now + GetSessionTTL = 86400000000000` (one configured day),
not the caller's value: a caller-supplied `ExpiresAt` is not passed
through. -/
theorem serverCreate_expiry_counterexample :
    (ServerCreateSession 1 [] 0 ⟨"s1", "a@b.com", "t1", false, some 999⟩
        ⟨⟨[]⟩, 0, []⟩).1 =
      .ok ⟨"s1", "a@b.com", "t1", false, 86400000000000⟩ ∧
    (86400000000000 : Int) ≠ 999 :=
  ⟨by decide, by decide⟩

/-- C8 witness. -/
theorem serverCreate_expiry_witness :
    (⟨"s1", "a@b.com", "t1", false, 86400000000000⟩ : SessionRes).ExpiresAt =
      0 + GetSessionTTL 1 :=
  serverCreate_expiry 1 [] 0 ⟨"s1", "a@b.com", "t1", false, some 999⟩ ⟨⟨[]⟩, 0, []⟩
    ⟨"s1", "a@b.com", "t1", false, 86400000000000⟩
    ⟨⟨[("session:s1", (RVal.sess ⟨"s1", "a@b.com", "t1", false, 0, 86400000000000⟩,
          86400000000000)),
       ("user_sessions:a@b.com", (RVal.set ["s1"], 86400000000000))]⟩, 3,
     [.setSess "session:s1" ⟨"s1", "a@b.com", "t1", false, 0, 86400000000000⟩
        86400000000000,
      .sadd "user_sessions:a@b.com" "s1",
      .expire "user_sessions:a@b.com" 86400000000000]⟩ (by decide)

/-- C5 witness: a corrupted index (a missing id, a wrong-type blob, a
foreign-owned session and a revoked one, next to one live session)
yields a successful result filtered down to the one matching non-revoked
session. -/
theorem getSessionsByEmail_filter_witness :
    (⟨"good", "a@b.com", "tG", false, 1, 99⟩ : Session).UserEmail = "a@b.com" ∧
    (⟨"good", "a@b.com", "tG", false, 1, 99⟩ : Session).IsRevoked = false :=
  getSessionsByEmail_filter [] "a@b.com"
    ⟨⟨[("user_sessions:a@b.com", (.set ["good", "gone", "bad", "foreign", "dead"], 50)),
       ("session:good", (.sess ⟨"good", "a@b.com", "tG", false, 1, 99⟩, 50)),
       ("session:bad", (.str "garbage", 50)),
       ("session:foreign", (.sess ⟨"foreign", "z@q.org", "t9", false, 1, 99⟩, 50)),
       ("session:dead", (.sess ⟨"dead", "a@b.com", "t8", true, 1, 99⟩, 50))]⟩, 0, []⟩
    ⟨⟨[("user_sessions:a@b.com", (.set ["good", "gone", "bad", "foreign", "dead"], 50)),
       ("session:good", (.sess ⟨"good", "a@b.com", "tG", false, 1, 99⟩, 50)),
       ("session:bad", (.str "garbage", 50)),
       ("session:foreign", (.sess ⟨"foreign", "z@q.org", "t9", false, 1, 99⟩, 50)),
       ("session:dead", (.sess ⟨"dead", "a@b.com", "t8", true, 1, 99⟩, 50))]⟩, 2, []⟩
    [⟨"good", "a@b.com", "tG", false, 1, 99⟩] (by decide)
    ⟨"good", "a@b.com", "tG", false, 1, 99⟩ (by decide)
